import Mathlib

/-!
Shallow embedding of `src/backend/src/main.rs` (moovolt-mvp OCPP 1.6J server).

Modelling conventions:
* `Json` models `serde_json::Value` at the level the frames use: numbers are
  integers (`Int`); the frames and payloads under verification never carry
  floating-point literals.  `decode`/`encode` work on `Json` values; the
  text layer (`serde_json::from_str`/`to_string`) is the standard JSON
  grammar and round-trips between text and `Json`, so frame-level claims are
  stated on `Json`.
* serde's `#[serde(untagged)]` deserialisation is "first variant that
  succeeds, in declaration order"; it is modelled by the `oOr` combinator
  applied in the exact declaration order of the Rust enums.
* Rust struct deserialisation (serde derive, no `deny_unknown_fields`)
  accepts any JSON object that supplies every required field at the right
  type; unknown fields are ignored; `Option` fields treat an absent key and
  an explicit `null` as `none`.  `DateTime<Utc>` fields are modelled as
  strings (the claims under verification never depend on timestamp grammar).
* The payload structs come from the external `rust_ocpp::v1_6` crate (not
  part of this repository); their field lists are modelled from the OCPP 1.6
  schemas that crate implements.  Deeply nested payload components that no
  claim touches (meter values, charging profiles, configuration key lists,
  transaction data) are kept as raw `Json`.
-/

/-- JSON values as manipulated by `serde_json`, numbers restricted to
integers (all frame elements in scope are integers). -/
inductive Json where
  | null : Json
  | bool (b : Bool) : Json
  | num (n : Int) : Json
  | str (s : String) : Json
  | arr (elems : List Json) : Json
  | obj (fields : List (String × Json)) : Json
deriving Repr

mutual

/-- Structural equality test on `Json`. -/
def Json.beq : Json → Json → Bool
  | .null, .null => true
  | .bool a, .bool b => a == b
  | .num a, .num b => a == b
  | .str a, .str b => a == b
  | .arr a, .arr b => Json.beqList a b
  | .obj a, .obj b => Json.beqFields a b
  | _, _ => false

def Json.beqList : List Json → List Json → Bool
  | [], [] => true
  | x :: xs, y :: ys => Json.beq x y && Json.beqList xs ys
  | _, _ => false

def Json.beqFields : List (String × Json) → List (String × Json) → Bool
  | [], [] => true
  | (k, v) :: xs, (l, w) :: ys => k == l && Json.beq v w && Json.beqFields xs ys
  | _, _ => false

end

mutual

theorem Json.beq_eq : ∀ a b : Json, Json.beq a b = true → a = b
  | .null, .null, _ => rfl
  | .bool a, .bool b, h => by
      simp only [Json.beq, beq_iff_eq] at h; exact h ▸ rfl
  | .num a, .num b, h => by
      simp only [Json.beq, beq_iff_eq] at h; exact h ▸ rfl
  | .str a, .str b, h => by
      simp only [Json.beq, beq_iff_eq] at h; exact h ▸ rfl
  | .arr a, .arr b, h => by
      simp only [Json.beq] at h
      exact congrArg Json.arr (Json.beqList_eq a b h)
  | .obj a, .obj b, h => by
      simp only [Json.beq] at h
      exact congrArg Json.obj (Json.beqFields_eq a b h)

theorem Json.beqList_eq : ∀ a b : List Json, Json.beqList a b = true → a = b
  | [], [], _ => rfl
  | x :: xs, y :: ys, h => by
      simp only [Json.beqList, Bool.and_eq_true] at h
      exact congrArg₂ List.cons (Json.beq_eq x y h.1) (Json.beqList_eq xs ys h.2)

theorem Json.beqFields_eq :
    ∀ a b : List (String × Json), Json.beqFields a b = true → a = b
  | [], [], _ => rfl
  | (k, v) :: xs, (l, w) :: ys, h => by
      simp only [Json.beqFields, Bool.and_eq_true, beq_iff_eq] at h
      obtain ⟨⟨hk, hv⟩, ht⟩ := h
      exact congrArg₂ List.cons (by rw [hk, Json.beq_eq v w hv])
        (Json.beqFields_eq xs ys ht)

end

mutual

theorem Json.beq_refl : ∀ a : Json, Json.beq a a = true
  | .null => rfl
  | .bool a => by simp [Json.beq]
  | .num a => by simp [Json.beq]
  | .str a => by simp [Json.beq]
  | .arr a => by simp only [Json.beq]; exact Json.beqList_refl a
  | .obj a => by simp only [Json.beq]; exact Json.beqFields_refl a

theorem Json.beqList_refl : ∀ a : List Json, Json.beqList a a = true
  | [] => rfl
  | x :: xs => by
      simp only [Json.beqList, Bool.and_eq_true]
      exact ⟨Json.beq_refl x, Json.beqList_refl xs⟩

theorem Json.beqFields_refl : ∀ a : List (String × Json), Json.beqFields a a = true
  | [] => rfl
  | (k, v) :: xs => by
      simp only [Json.beqFields, Bool.and_eq_true, beq_self_eq_true, true_and]
      exact ⟨Json.beq_refl v, Json.beqFields_refl xs⟩

end

instance : DecidableEq Json := fun a b =>
  if h : Json.beq a b = true then
    .isTrue (Json.beq_eq a b h)
  else
    .isFalse (fun he => h (he ▸ Json.beq_refl a))

/-- Look up a field of a JSON object (serde map access by key). -/
def Json.getField : Json → String → Option Json
  | .obj fields, k => fields.lookup k
  | _, _ => none

/-- `true` exactly on JSON arrays. -/
def Json.isArr : Json → Bool
  | .arr _ => true
  | _ => false

/-- `true` exactly on JSON objects. -/
def Json.isObj : Json → Bool
  | .obj _ => true
  | _ => false

/-- serde: deserialise a required `String` field. -/
def Json.asStr : Json → Option String
  | .str s => some s
  | _ => none

/-- serde: deserialise an unsigned integer (`u64`/`usize`). -/
def Json.asUInt : Json → Option Nat
  | .num n => if 0 ≤ n then some n.toNat else none
  | _ => none

/-- serde: deserialise a signed integer (`i32`/`i64`). -/
def Json.asInt : Json → Option Int
  | .num n => some n
  | _ => none

/-- serde: required field of an object, parsed by `f`; missing or
ill-typed field fails the whole struct. -/
def reqField (j : Json) (k : String) (f : Json → Option α) : Option α :=
  (j.getField k).bind f

/-- serde: `Option` field; absent key and explicit `null` give `none`,
a present non-null value must parse with `f`. -/
def optField (j : Json) (k : String) (f : Json → Option α) : Option (Option α) :=
  match j.getField k with
  | none => some none
  | some .null => some none
  | some v => (f v).map some

/-- serde `#[serde(untagged)]`: try the left variant, fall back to the
right one on failure (declaration order). -/
def oOr (a b : Option α) : Option α :=
  match a with
  | some x => some x
  | none => b

/-! ## OCPP 1.6 wire enums (from `rust_ocpp::v1_6::types`) -/

/-- `rust_ocpp::v1_6::types::AuthorizationStatus`. -/
inductive AuthorizationStatus where
  | Accepted | Blocked | Expired | Invalid | ConcurrentTx
deriving DecidableEq, Repr

def AuthorizationStatus.toWire : AuthorizationStatus → String
  | .Accepted => "Accepted"
  | .Blocked => "Blocked"
  | .Expired => "Expired"
  | .Invalid => "Invalid"
  | .ConcurrentTx => "ConcurrentTx"

def AuthorizationStatus.fromJson : Json → Option AuthorizationStatus
  | .str "Accepted" => some .Accepted
  | .str "Blocked" => some .Blocked
  | .str "Expired" => some .Expired
  | .str "Invalid" => some .Invalid
  | .str "ConcurrentTx" => some .ConcurrentTx
  | _ => none

/-- `rust_ocpp::v1_6::types::RegistrationStatus`. -/
inductive RegistrationStatus where
  | Accepted | Pending | Rejected
deriving DecidableEq, Repr

def RegistrationStatus.toWire : RegistrationStatus → String
  | .Accepted => "Accepted"
  | .Pending => "Pending"
  | .Rejected => "Rejected"

def RegistrationStatus.fromJson : Json → Option RegistrationStatus
  | .str "Accepted" => some .Accepted
  | .str "Pending" => some .Pending
  | .str "Rejected" => some .Rejected
  | _ => none

/-- `rust_ocpp::v1_6::types::AvailabilityType`. -/
inductive AvailabilityType where
  | Inoperative | Operative
deriving DecidableEq, Repr

def AvailabilityType.toWire : AvailabilityType → String
  | .Inoperative => "Inoperative"
  | .Operative => "Operative"

def AvailabilityType.fromJson : Json → Option AvailabilityType
  | .str "Inoperative" => some .Inoperative
  | .str "Operative" => some .Operative
  | _ => none

/-- `rust_ocpp::v1_6::types::ConfigurationStatus`. -/
inductive ConfigurationStatus where
  | Accepted | Rejected | RebootRequired | NotSupported
deriving DecidableEq, Repr

def ConfigurationStatus.toWire : ConfigurationStatus → String
  | .Accepted => "Accepted"
  | .Rejected => "Rejected"
  | .RebootRequired => "RebootRequired"
  | .NotSupported => "NotSupported"

def ConfigurationStatus.fromJson : Json → Option ConfigurationStatus
  | .str "Accepted" => some .Accepted
  | .str "Rejected" => some .Rejected
  | .str "RebootRequired" => some .RebootRequired
  | .str "NotSupported" => some .NotSupported
  | _ => none

/-- `rust_ocpp::v1_6::types::ClearCacheStatus`. -/
inductive ClearCacheStatus where
  | Accepted | Rejected
deriving DecidableEq, Repr

def ClearCacheStatus.toWire : ClearCacheStatus → String
  | .Accepted => "Accepted"
  | .Rejected => "Rejected"

def ClearCacheStatus.fromJson : Json → Option ClearCacheStatus
  | .str "Accepted" => some .Accepted
  | .str "Rejected" => some .Rejected
  | _ => none

/-- `rust_ocpp::v1_6::types::DataTransferStatus`. -/
inductive DataTransferStatus where
  | Accepted | Rejected | UnknownMessageId | UnknownVendorId
deriving DecidableEq, Repr

def DataTransferStatus.toWire : DataTransferStatus → String
  | .Accepted => "Accepted"
  | .Rejected => "Rejected"
  | .UnknownMessageId => "UnknownMessageId"
  | .UnknownVendorId => "UnknownVendorId"

def DataTransferStatus.fromJson : Json → Option DataTransferStatus
  | .str "Accepted" => some .Accepted
  | .str "Rejected" => some .Rejected
  | .str "UnknownMessageId" => some .UnknownMessageId
  | .str "UnknownVendorId" => some .UnknownVendorId
  | _ => none

/-- `rust_ocpp::v1_6::types::RemoteStartStopStatus`. -/
inductive RemoteStartStopStatus where
  | Accepted | Rejected
deriving DecidableEq, Repr

def RemoteStartStopStatus.toWire : RemoteStartStopStatus → String
  | .Accepted => "Accepted"
  | .Rejected => "Rejected"

def RemoteStartStopStatus.fromJson : Json → Option RemoteStartStopStatus
  | .str "Accepted" => some .Accepted
  | .str "Rejected" => some .Rejected
  | _ => none

/-- `rust_ocpp::v1_6::types::ResetRequestStatus` (Hard/Soft). -/
inductive ResetType where
  | Hard | Soft
deriving DecidableEq, Repr

def ResetType.toWire : ResetType → String
  | .Hard => "Hard"
  | .Soft => "Soft"

def ResetType.fromJson : Json → Option ResetType
  | .str "Hard" => some .Hard
  | .str "Soft" => some .Soft
  | _ => none

/-- `rust_ocpp::v1_6::types::ResetResponseStatus`. -/
inductive ResetStatus where
  | Accepted | Rejected
deriving DecidableEq, Repr

def ResetStatus.toWire : ResetStatus → String
  | .Accepted => "Accepted"
  | .Rejected => "Rejected"

def ResetStatus.fromJson : Json → Option ResetStatus
  | .str "Accepted" => some .Accepted
  | .str "Rejected" => some .Rejected
  | _ => none

/-- `rust_ocpp::v1_6::types::UnlockStatus`. -/
inductive UnlockStatus where
  | Unlocked | UnlockFailed | NotSupported
deriving DecidableEq, Repr

def UnlockStatus.toWire : UnlockStatus → String
  | .Unlocked => "Unlocked"
  | .UnlockFailed => "UnlockFailed"
  | .NotSupported => "NotSupported"

def UnlockStatus.fromJson : Json → Option UnlockStatus
  | .str "Unlocked" => some .Unlocked
  | .str "UnlockFailed" => some .UnlockFailed
  | .str "NotSupported" => some .NotSupported
  | _ => none

/-- `rust_ocpp::v1_6::types::IdTagInfo`.  `expiry_date` is a
`DateTime<Utc>` modelled as a string. -/
structure IdTagInfo where
  expiry_date : Option String
  parent_id_tag : Option String
  status : AuthorizationStatus
deriving DecidableEq, Repr

def IdTagInfo.fromJson (j : Json) : Option IdTagInfo :=
  if j.isObj then do
    let e ← optField j "expiryDate" Json.asStr
    let p ← optField j "parentIdTag" Json.asStr
    let s ← reqField j "status" AuthorizationStatus.fromJson
    pure ⟨e, p, s⟩
  else none

/-! ## OCPP 1.6 message payload structs (from `rust_ocpp::v1_6::messages`).
Parsers model serde derive deserialisation from a JSON object; wire field
names are camelCase.  Fields whose inner structure no claim touches
(meter values, charging profiles, configuration key lists, transaction
data) are kept as raw `Json`. -/

structure AuthorizeRequest where
  id_tag : String
deriving DecidableEq, Repr

def AuthorizeRequest.fromJson (j : Json) : Option AuthorizeRequest :=
  if j.isObj then do
    let t ← reqField j "idTag" Json.asStr
    pure ⟨t⟩
  else none

structure AuthorizeResponse where
  id_tag_info : IdTagInfo
deriving DecidableEq, Repr

def AuthorizeResponse.fromJson (j : Json) : Option AuthorizeResponse :=
  if j.isObj then do
    let i ← reqField j "idTagInfo" IdTagInfo.fromJson
    pure ⟨i⟩
  else none

structure BootNotificationRequest where
  charge_box_serial_number : Option String
  charge_point_model : String
  charge_point_serial_number : Option String
  charge_point_vendor : String
  firmware_version : Option String
  iccid : Option String
  imsi : Option String
  meter_serial_number : Option String
  meter_type : Option String
deriving DecidableEq, Repr

def BootNotificationRequest.fromJson (j : Json) : Option BootNotificationRequest :=
  if j.isObj then do
    let cbsn ← optField j "chargeBoxSerialNumber" Json.asStr
    let model ← reqField j "chargePointModel" Json.asStr
    let cpsn ← optField j "chargePointSerialNumber" Json.asStr
    let vendor ← reqField j "chargePointVendor" Json.asStr
    let fw ← optField j "firmwareVersion" Json.asStr
    let iccid ← optField j "iccid" Json.asStr
    let imsi ← optField j "imsi" Json.asStr
    let msn ← optField j "meterSerialNumber" Json.asStr
    let mt ← optField j "meterType" Json.asStr
    pure ⟨cbsn, model, cpsn, vendor, fw, iccid, imsi, msn, mt⟩
  else none

structure BootNotificationResponse where
  current_time : String
  interval : Int
  status : RegistrationStatus
deriving DecidableEq, Repr

def BootNotificationResponse.fromJson (j : Json) : Option BootNotificationResponse :=
  if j.isObj then do
    let t ← reqField j "currentTime" Json.asStr
    let i ← reqField j "interval" Json.asInt
    let s ← reqField j "status" RegistrationStatus.fromJson
    pure ⟨t, i, s⟩
  else none

/-- `rust_ocpp` names the `type` wire field `kind`
(`#[serde(rename = "type")]`). -/
structure ChangeAvailabilityRequest where
  connector_id : Nat
  kind : AvailabilityType
deriving DecidableEq, Repr

def ChangeAvailabilityRequest.fromJson (j : Json) : Option ChangeAvailabilityRequest :=
  if j.isObj then do
    let c ← reqField j "connectorId" Json.asUInt
    let k ← reqField j "type" AvailabilityType.fromJson
    pure ⟨c, k⟩
  else none

structure ChangeConfigurationRequest where
  key : String
  value : String
deriving DecidableEq, Repr

def ChangeConfigurationRequest.fromJson (j : Json) : Option ChangeConfigurationRequest :=
  if j.isObj then do
    let k ← reqField j "key" Json.asStr
    let v ← reqField j "value" Json.asStr
    pure ⟨k, v⟩
  else none

structure ChangeConfigurationResponse where
  status : ConfigurationStatus
deriving DecidableEq, Repr

def ChangeConfigurationResponse.fromJson (j : Json) : Option ChangeConfigurationResponse :=
  if j.isObj then do
    let s ← reqField j "status" ConfigurationStatus.fromJson
    pure ⟨s⟩
  else none

/-- Empty struct: serde accepts any JSON object (unknown fields ignored). -/
structure ClearCacheRequest where
deriving DecidableEq, Repr

def ClearCacheRequest.fromJson (j : Json) : Option ClearCacheRequest :=
  if j.isObj then some ⟨⟩ else none

structure ClearCacheResponse where
  status : ClearCacheStatus
deriving DecidableEq, Repr

def ClearCacheResponse.fromJson (j : Json) : Option ClearCacheResponse :=
  if j.isObj then do
    let s ← reqField j "status" ClearCacheStatus.fromJson
    pure ⟨s⟩
  else none

structure DataTransferRequest where
  vendor_id : String
  message_id : Option String
  data : Option String
deriving DecidableEq, Repr

def DataTransferRequest.fromJson (j : Json) : Option DataTransferRequest :=
  if j.isObj then do
    let v ← reqField j "vendorId" Json.asStr
    let m ← optField j "messageId" Json.asStr
    let d ← optField j "data" Json.asStr
    pure ⟨v, m, d⟩
  else none

structure DataTransferResponse where
  status : DataTransferStatus
  data : Option String
deriving DecidableEq, Repr

def DataTransferResponse.fromJson (j : Json) : Option DataTransferResponse :=
  if j.isObj then do
    let s ← reqField j "status" DataTransferStatus.fromJson
    let d ← optField j "data" Json.asStr
    pure ⟨s, d⟩
  else none

/-- `key: Option<Vec<String>>` kept as raw `Json` (no claim touches it). -/
structure GetConfigurationRequest where
  key : Option Json
deriving DecidableEq, Repr

def GetConfigurationRequest.fromJson (j : Json) : Option GetConfigurationRequest :=
  if j.isObj then do
    let k ← optField j "key" some
    pure ⟨k⟩
  else none

structure GetConfigurationResponse where
  configuration_key : Option Json
  unknown_key : Option Json
deriving DecidableEq, Repr

def GetConfigurationResponse.fromJson (j : Json) : Option GetConfigurationResponse :=
  if j.isObj then do
    let c ← optField j "configurationKey" some
    let u ← optField j "unknownKey" some
    pure ⟨c, u⟩
  else none

/-- Empty struct: serde accepts any JSON object. -/
structure HeartbeatRequest where
deriving DecidableEq, Repr

def HeartbeatRequest.fromJson (j : Json) : Option HeartbeatRequest :=
  if j.isObj then some ⟨⟩ else none

/-- `current_time: DateTime<Utc>` modelled as a string. -/
structure HeartbeatResponse where
  current_time : String
deriving DecidableEq, Repr

def HeartbeatResponse.fromJson (j : Json) : Option HeartbeatResponse :=
  if j.isObj then do
    let t ← reqField j "currentTime" Json.asStr
    pure ⟨t⟩
  else none

/-- `meter_value: Vec<MeterValue>` kept as a raw JSON array. -/
structure MeterValuesRequest where
  connector_id : Nat
  transaction_id : Option Int
  meter_value : Json
deriving DecidableEq, Repr

def MeterValuesRequest.fromJson (j : Json) : Option MeterValuesRequest :=
  if j.isObj then do
    let c ← reqField j "connectorId" Json.asUInt
    let t ← optField j "transactionId" Json.asInt
    let m ← reqField j "meterValue" (fun v => if v.isArr then some v else none)
    pure ⟨c, t, m⟩
  else none

structure MeterValuesResponse where
deriving DecidableEq, Repr

def MeterValuesResponse.fromJson (j : Json) : Option MeterValuesResponse :=
  if j.isObj then some ⟨⟩ else none

/-- `charging_profile` kept as raw `Json`. -/
structure RemoteStartTransactionRequest where
  connector_id : Option Nat
  id_tag : String
  charging_profile : Option Json
deriving DecidableEq, Repr

def RemoteStartTransactionRequest.fromJson (j : Json) :
    Option RemoteStartTransactionRequest :=
  if j.isObj then do
    let c ← optField j "connectorId" Json.asUInt
    let t ← reqField j "idTag" Json.asStr
    let p ← optField j "chargingProfile" some
    pure ⟨c, t, p⟩
  else none

structure RemoteStartTransactionResponse where
  status : RemoteStartStopStatus
deriving DecidableEq, Repr

def RemoteStartTransactionResponse.fromJson (j : Json) :
    Option RemoteStartTransactionResponse :=
  if j.isObj then do
    let s ← reqField j "status" RemoteStartStopStatus.fromJson
    pure ⟨s⟩
  else none

structure RemoteStopTransactionRequest where
  transaction_id : Int
deriving DecidableEq, Repr

def RemoteStopTransactionRequest.fromJson (j : Json) :
    Option RemoteStopTransactionRequest :=
  if j.isObj then do
    let t ← reqField j "transactionId" Json.asInt
    pure ⟨t⟩
  else none

structure RemoteStopTransactionResponse where
  status : RemoteStartStopStatus
deriving DecidableEq, Repr

def RemoteStopTransactionResponse.fromJson (j : Json) :
    Option RemoteStopTransactionResponse :=
  if j.isObj then do
    let s ← reqField j "status" RemoteStartStopStatus.fromJson
    pure ⟨s⟩
  else none

/-- `rust_ocpp` names the `type` wire field `kind`. -/
structure ResetRequest where
  kind : ResetType
deriving DecidableEq, Repr

def ResetRequest.fromJson (j : Json) : Option ResetRequest :=
  if j.isObj then do
    let k ← reqField j "type" ResetType.fromJson
    pure ⟨k⟩
  else none

structure ResetResponse where
  status : ResetStatus
deriving DecidableEq, Repr

def ResetResponse.fromJson (j : Json) : Option ResetResponse :=
  if j.isObj then do
    let s ← reqField j "status" ResetStatus.fromJson
    pure ⟨s⟩
  else none

structure StartTransactionRequest where
  connector_id : Nat
  id_tag : String
  meter_start : Int
  reservation_id : Option Int
  timestamp : String
deriving DecidableEq, Repr

def StartTransactionRequest.fromJson (j : Json) : Option StartTransactionRequest :=
  if j.isObj then do
    let c ← reqField j "connectorId" Json.asUInt
    let t ← reqField j "idTag" Json.asStr
    let m ← reqField j "meterStart" Json.asInt
    let r ← optField j "reservationId" Json.asInt
    let ts ← reqField j "timestamp" Json.asStr
    pure ⟨c, t, m, r, ts⟩
  else none

structure StartTransactionResponse where
  id_tag_info : IdTagInfo
  transaction_id : Int
deriving DecidableEq, Repr

def StartTransactionResponse.fromJson (j : Json) : Option StartTransactionResponse :=
  if j.isObj then do
    let i ← reqField j "idTagInfo" IdTagInfo.fromJson
    let t ← reqField j "transactionId" Json.asInt
    pure ⟨i, t⟩
  else none

/-- `error_code` / `status` are OCPP enumerations modelled as strings:
this variant sits after `ClearCache` in the untagged union, so no claim
depends on their exact value sets. -/
structure StatusNotificationRequest where
  connector_id : Nat
  error_code : String
  info : Option String
  status : String
  timestamp : Option String
  vendor_id : Option String
  vendor_error_code : Option String
deriving DecidableEq, Repr

def StatusNotificationRequest.fromJson (j : Json) : Option StatusNotificationRequest :=
  if j.isObj then do
    let c ← reqField j "connectorId" Json.asUInt
    let e ← reqField j "errorCode" Json.asStr
    let i ← optField j "info" Json.asStr
    let s ← reqField j "status" Json.asStr
    let t ← optField j "timestamp" Json.asStr
    let v ← optField j "vendorId" Json.asStr
    let vec ← optField j "vendorErrorCode" Json.asStr
    pure ⟨c, e, i, s, t, v, vec⟩
  else none

structure StatusNotificationResponse where
deriving DecidableEq, Repr

def StatusNotificationResponse.fromJson (j : Json) : Option StatusNotificationResponse :=
  if j.isObj then some ⟨⟩ else none

/-- `transaction_data` kept as raw `Json`; `reason` modelled as a string. -/
structure StopTransactionRequest where
  id_tag : Option String
  meter_stop : Int
  timestamp : String
  transaction_id : Int
  reason : Option String
  transaction_data : Option Json
deriving DecidableEq, Repr

def StopTransactionRequest.fromJson (j : Json) : Option StopTransactionRequest :=
  if j.isObj then do
    let i ← optField j "idTag" Json.asStr
    let m ← reqField j "meterStop" Json.asInt
    let ts ← reqField j "timestamp" Json.asStr
    let t ← reqField j "transactionId" Json.asInt
    let r ← optField j "reason" Json.asStr
    let td ← optField j "transactionData" some
    pure ⟨i, m, ts, t, r, td⟩
  else none

structure StopTransactionResponse where
  id_tag_info : Option IdTagInfo
deriving DecidableEq, Repr

def StopTransactionResponse.fromJson (j : Json) : Option StopTransactionResponse :=
  if j.isObj then do
    let i ← optField j "idTagInfo" IdTagInfo.fromJson
    pure ⟨i⟩
  else none

structure UnlockConnectorRequest where
  connector_id : Nat
deriving DecidableEq, Repr

def UnlockConnectorRequest.fromJson (j : Json) : Option UnlockConnectorRequest :=
  if j.isObj then do
    let c ← reqField j "connectorId" Json.asUInt
    pure ⟨c⟩
  else none

structure UnlockConnectorResponse where
  status : UnlockStatus
deriving DecidableEq, Repr

def UnlockConnectorResponse.fromJson (j : Json) : Option UnlockConnectorResponse :=
  if j.isObj then do
    let s ← reqField j "status" UnlockStatus.fromJson
    pure ⟨s⟩
  else none

/-! ## Per-action `*Kind` untagged enums (main.rs lines 90–200).
serde `#[serde(untagged)]`: try `Request` then `Response`, declaration
order.  Note `ChangeAvailabilityKind` wraps `ChangeAvailabilityRequest`
in BOTH variants, exactly as in the source (lines 104–109). -/

inductive AuthorizeKind where
  | Request (r : AuthorizeRequest)
  | Response (r : AuthorizeResponse)
deriving DecidableEq, Repr

def AuthorizeKind.fromJson (j : Json) : Option AuthorizeKind :=
  oOr ((AuthorizeRequest.fromJson j).map .Request)
      ((AuthorizeResponse.fromJson j).map .Response)

inductive BootNotificationKind where
  | Request (r : BootNotificationRequest)
  | Response (r : BootNotificationResponse)
deriving DecidableEq, Repr

def BootNotificationKind.fromJson (j : Json) : Option BootNotificationKind :=
  oOr ((BootNotificationRequest.fromJson j).map .Request)
      ((BootNotificationResponse.fromJson j).map .Response)

inductive ChangeAvailabilityKind where
  | Request (r : ChangeAvailabilityRequest)
  | Response (r : ChangeAvailabilityRequest)
deriving DecidableEq, Repr

def ChangeAvailabilityKind.fromJson (j : Json) : Option ChangeAvailabilityKind :=
  oOr ((ChangeAvailabilityRequest.fromJson j).map .Request)
      ((ChangeAvailabilityRequest.fromJson j).map .Response)

inductive ChangeConfigurationKind where
  | Request (r : ChangeConfigurationRequest)
  | Response (r : ChangeConfigurationResponse)
deriving DecidableEq, Repr

def ChangeConfigurationKind.fromJson (j : Json) : Option ChangeConfigurationKind :=
  oOr ((ChangeConfigurationRequest.fromJson j).map .Request)
      ((ChangeConfigurationResponse.fromJson j).map .Response)

inductive ClearCacheKind where
  | Request (r : ClearCacheRequest)
  | Response (r : ClearCacheResponse)
deriving DecidableEq, Repr

def ClearCacheKind.fromJson (j : Json) : Option ClearCacheKind :=
  oOr ((ClearCacheRequest.fromJson j).map .Request)
      ((ClearCacheResponse.fromJson j).map .Response)

inductive DataTransferKind where
  | Request (r : DataTransferRequest)
  | Response (r : DataTransferResponse)
deriving DecidableEq, Repr

def DataTransferKind.fromJson (j : Json) : Option DataTransferKind :=
  oOr ((DataTransferRequest.fromJson j).map .Request)
      ((DataTransferResponse.fromJson j).map .Response)

inductive GetConfigurationKind where
  | Request (r : GetConfigurationRequest)
  | Response (r : GetConfigurationResponse)
deriving DecidableEq, Repr

def GetConfigurationKind.fromJson (j : Json) : Option GetConfigurationKind :=
  oOr ((GetConfigurationRequest.fromJson j).map .Request)
      ((GetConfigurationResponse.fromJson j).map .Response)

inductive HeartbeatKind where
  | Request (r : HeartbeatRequest)
  | Response (r : HeartbeatResponse)
deriving DecidableEq, Repr

def HeartbeatKind.fromJson (j : Json) : Option HeartbeatKind :=
  oOr ((HeartbeatRequest.fromJson j).map .Request)
      ((HeartbeatResponse.fromJson j).map .Response)

inductive MeterValuesKind where
  | Request (r : MeterValuesRequest)
  | Response (r : MeterValuesResponse)
deriving DecidableEq, Repr

def MeterValuesKind.fromJson (j : Json) : Option MeterValuesKind :=
  oOr ((MeterValuesRequest.fromJson j).map .Request)
      ((MeterValuesResponse.fromJson j).map .Response)

inductive RemoteStartTransactionKind where
  | Request (r : RemoteStartTransactionRequest)
  | Response (r : RemoteStartTransactionResponse)
deriving DecidableEq, Repr

def RemoteStartTransactionKind.fromJson (j : Json) : Option RemoteStartTransactionKind :=
  oOr ((RemoteStartTransactionRequest.fromJson j).map .Request)
      ((RemoteStartTransactionResponse.fromJson j).map .Response)

inductive RemoteStopTransactionKind where
  | Request (r : RemoteStopTransactionRequest)
  | Response (r : RemoteStopTransactionResponse)
deriving DecidableEq, Repr

def RemoteStopTransactionKind.fromJson (j : Json) : Option RemoteStopTransactionKind :=
  oOr ((RemoteStopTransactionRequest.fromJson j).map .Request)
      ((RemoteStopTransactionResponse.fromJson j).map .Response)

inductive ResetKind where
  | Request (r : ResetRequest)
  | Response (r : ResetResponse)
deriving DecidableEq, Repr

def ResetKind.fromJson (j : Json) : Option ResetKind :=
  oOr ((ResetRequest.fromJson j).map .Request)
      ((ResetResponse.fromJson j).map .Response)

inductive StartTransactionKind where
  | Request (r : StartTransactionRequest)
  | Response (r : StartTransactionResponse)
deriving DecidableEq, Repr

def StartTransactionKind.fromJson (j : Json) : Option StartTransactionKind :=
  oOr ((StartTransactionRequest.fromJson j).map .Request)
      ((StartTransactionResponse.fromJson j).map .Response)

inductive StopTransactionKind where
  | Request (r : StopTransactionRequest)
  | Response (r : StopTransactionResponse)
deriving DecidableEq, Repr

def StopTransactionKind.fromJson (j : Json) : Option StopTransactionKind :=
  oOr ((StopTransactionRequest.fromJson j).map .Request)
      ((StopTransactionResponse.fromJson j).map .Response)

inductive StatusNotificationKind where
  | Request (r : StatusNotificationRequest)
  | Response (r : StatusNotificationResponse)
deriving DecidableEq, Repr

def StatusNotificationKind.fromJson (j : Json) : Option StatusNotificationKind :=
  oOr ((StatusNotificationRequest.fromJson j).map .Request)
      ((StatusNotificationResponse.fromJson j).map .Response)

inductive UnlockConnectorKind where
  | Request (r : UnlockConnectorRequest)
  | Response (r : UnlockConnectorResponse)
deriving DecidableEq, Repr

def UnlockConnectorKind.fromJson (j : Json) : Option UnlockConnectorKind :=
  oOr ((UnlockConnectorRequest.fromJson j).map .Request)
      ((UnlockConnectorResponse.fromJson j).map .Response)

/-- `OcppPayload` (main.rs lines 202–223), variants in declaration order. -/
inductive OcppPayload where
  | Authorize (k : AuthorizeKind)
  | BootNotification (k : BootNotificationKind)
  | ChangeAvailability (k : ChangeAvailabilityKind)
  | ChangeConfiguration (k : ChangeConfigurationKind)
  | ClearCache (k : ClearCacheKind)
  | DataTransfer (k : DataTransferKind)
  | GetConfiguration (k : GetConfigurationKind)
  | Heartbeat (k : HeartbeatKind)
  | MeterValues (k : MeterValuesKind)
  | RemoteStartTransaction (k : RemoteStartTransactionKind)
  | RemoteStopTransaction (k : RemoteStopTransactionKind)
  | Reset (k : ResetKind)
  | StartTransaction (k : StartTransactionKind)
  | StatusNotification (k : StatusNotificationKind)
  | StopTransaction (k : StopTransactionKind)
  | UnlockConnector (k : UnlockConnectorKind)
deriving DecidableEq, Repr

/-- `serde_json::from_value::<OcppPayload>`: the untagged union tries
every variant in declaration order and keeps the first success — the
action name plays no part. -/
def ocppPayloadFromJson (j : Json) : Option OcppPayload :=
  oOr ((AuthorizeKind.fromJson j).map OcppPayload.Authorize)
  (oOr ((BootNotificationKind.fromJson j).map OcppPayload.BootNotification)
  (oOr ((ChangeAvailabilityKind.fromJson j).map OcppPayload.ChangeAvailability)
  (oOr ((ChangeConfigurationKind.fromJson j).map OcppPayload.ChangeConfiguration)
  (oOr ((ClearCacheKind.fromJson j).map OcppPayload.ClearCache)
  (oOr ((DataTransferKind.fromJson j).map OcppPayload.DataTransfer)
  (oOr ((GetConfigurationKind.fromJson j).map OcppPayload.GetConfiguration)
  (oOr ((HeartbeatKind.fromJson j).map OcppPayload.Heartbeat)
  (oOr ((MeterValuesKind.fromJson j).map OcppPayload.MeterValues)
  (oOr ((RemoteStartTransactionKind.fromJson j).map OcppPayload.RemoteStartTransaction)
  (oOr ((RemoteStopTransactionKind.fromJson j).map OcppPayload.RemoteStopTransaction)
  (oOr ((ResetKind.fromJson j).map OcppPayload.Reset)
  (oOr ((StartTransactionKind.fromJson j).map OcppPayload.StartTransaction)
  (oOr ((StatusNotificationKind.fromJson j).map OcppPayload.StatusNotification)
  (oOr ((StopTransactionKind.fromJson j).map OcppPayload.StopTransaction)
       ((UnlockConnectorKind.fromJson j).map OcppPayload.UnlockConnector)))))))))))))))

/-! ## Serialisation (serde `Serialize` derives).
Struct fields are emitted in declaration order with camelCase wire names;
`Option` fields use `skip_serializing_if = "Option::is_none"` in
`rust_ocpp`, i.e. absent when `none`.  Untagged enums serialise as their
content. -/

/-- An `Option` field: absent when `none`. -/
def optPair (k : String) (o : Option α) (enc : α → Json) : List (String × Json) :=
  match o with
  | none => []
  | some v => [(k, enc v)]

def IdTagInfo.toJson (i : IdTagInfo) : Json :=
  .obj (optPair "expiryDate" i.expiry_date Json.str ++
        optPair "parentIdTag" i.parent_id_tag Json.str ++
        [("status", .str i.status.toWire)])

def AuthorizeRequest.toJson (r : AuthorizeRequest) : Json :=
  .obj [("idTag", .str r.id_tag)]

def AuthorizeResponse.toJson (r : AuthorizeResponse) : Json :=
  .obj [("idTagInfo", r.id_tag_info.toJson)]

def BootNotificationRequest.toJson (r : BootNotificationRequest) : Json :=
  .obj (optPair "chargeBoxSerialNumber" r.charge_box_serial_number Json.str ++
        [("chargePointModel", .str r.charge_point_model)] ++
        optPair "chargePointSerialNumber" r.charge_point_serial_number Json.str ++
        [("chargePointVendor", .str r.charge_point_vendor)] ++
        optPair "firmwareVersion" r.firmware_version Json.str ++
        optPair "iccid" r.iccid Json.str ++
        optPair "imsi" r.imsi Json.str ++
        optPair "meterSerialNumber" r.meter_serial_number Json.str ++
        optPair "meterType" r.meter_type Json.str)

def BootNotificationResponse.toJson (r : BootNotificationResponse) : Json :=
  .obj [("currentTime", .str r.current_time),
        ("interval", .num r.interval),
        ("status", .str r.status.toWire)]

def ChangeAvailabilityRequest.toJson (r : ChangeAvailabilityRequest) : Json :=
  .obj [("connectorId", .num (r.connector_id : Int)),
        ("type", .str r.kind.toWire)]

def ChangeConfigurationRequest.toJson (r : ChangeConfigurationRequest) : Json :=
  .obj [("key", .str r.key), ("value", .str r.value)]

def ChangeConfigurationResponse.toJson (r : ChangeConfigurationResponse) : Json :=
  .obj [("status", .str r.status.toWire)]

def ClearCacheRequest.toJson (_ : ClearCacheRequest) : Json := .obj []

def ClearCacheResponse.toJson (r : ClearCacheResponse) : Json :=
  .obj [("status", .str r.status.toWire)]

def DataTransferRequest.toJson (r : DataTransferRequest) : Json :=
  .obj ([("vendorId", .str r.vendor_id)] ++
        optPair "messageId" r.message_id Json.str ++
        optPair "data" r.data Json.str)

def DataTransferResponse.toJson (r : DataTransferResponse) : Json :=
  .obj ([("status", .str r.status.toWire)] ++
        optPair "data" r.data Json.str)

def GetConfigurationRequest.toJson (r : GetConfigurationRequest) : Json :=
  .obj (optPair "key" r.key id)

def GetConfigurationResponse.toJson (r : GetConfigurationResponse) : Json :=
  .obj (optPair "configurationKey" r.configuration_key id ++
        optPair "unknownKey" r.unknown_key id)

def HeartbeatRequest.toJson (_ : HeartbeatRequest) : Json := .obj []

def HeartbeatResponse.toJson (r : HeartbeatResponse) : Json :=
  .obj [("currentTime", .str r.current_time)]

def MeterValuesRequest.toJson (r : MeterValuesRequest) : Json :=
  .obj ([("connectorId", .num (r.connector_id : Int))] ++
        optPair "transactionId" r.transaction_id Json.num ++
        [("meterValue", r.meter_value)])

def MeterValuesResponse.toJson (_ : MeterValuesResponse) : Json := .obj []

def RemoteStartTransactionRequest.toJson (r : RemoteStartTransactionRequest) : Json :=
  .obj (optPair "connectorId" r.connector_id (fun c => .num (c : Int)) ++
        [("idTag", .str r.id_tag)] ++
        optPair "chargingProfile" r.charging_profile id)

def RemoteStartTransactionResponse.toJson (r : RemoteStartTransactionResponse) : Json :=
  .obj [("status", .str r.status.toWire)]

def RemoteStopTransactionRequest.toJson (r : RemoteStopTransactionRequest) : Json :=
  .obj [("transactionId", .num r.transaction_id)]

def RemoteStopTransactionResponse.toJson (r : RemoteStopTransactionResponse) : Json :=
  .obj [("status", .str r.status.toWire)]

def ResetRequest.toJson (r : ResetRequest) : Json :=
  .obj [("type", .str r.kind.toWire)]

def ResetResponse.toJson (r : ResetResponse) : Json :=
  .obj [("status", .str r.status.toWire)]

def StartTransactionRequest.toJson (r : StartTransactionRequest) : Json :=
  .obj ([("connectorId", .num (r.connector_id : Int)),
         ("idTag", .str r.id_tag),
         ("meterStart", .num r.meter_start)] ++
        optPair "reservationId" r.reservation_id Json.num ++
        [("timestamp", .str r.timestamp)])

def StartTransactionResponse.toJson (r : StartTransactionResponse) : Json :=
  .obj [("idTagInfo", r.id_tag_info.toJson),
        ("transactionId", .num r.transaction_id)]

def StatusNotificationRequest.toJson (r : StatusNotificationRequest) : Json :=
  .obj ([("connectorId", .num (r.connector_id : Int)),
         ("errorCode", .str r.error_code)] ++
        optPair "info" r.info Json.str ++
        [("status", .str r.status)] ++
        optPair "timestamp" r.timestamp Json.str ++
        optPair "vendorId" r.vendor_id Json.str ++
        optPair "vendorErrorCode" r.vendor_error_code Json.str)

def StatusNotificationResponse.toJson (_ : StatusNotificationResponse) : Json := .obj []

def StopTransactionRequest.toJson (r : StopTransactionRequest) : Json :=
  .obj (optPair "idTag" r.id_tag Json.str ++
        [("meterStop", .num r.meter_stop),
         ("timestamp", .str r.timestamp),
         ("transactionId", .num r.transaction_id)] ++
        optPair "reason" r.reason Json.str ++
        optPair "transactionData" r.transaction_data id)

def StopTransactionResponse.toJson (r : StopTransactionResponse) : Json :=
  .obj (optPair "idTagInfo" r.id_tag_info IdTagInfo.toJson)

def UnlockConnectorRequest.toJson (r : UnlockConnectorRequest) : Json :=
  .obj [("connectorId", .num (r.connector_id : Int))]

def UnlockConnectorResponse.toJson (r : UnlockConnectorResponse) : Json :=
  .obj [("status", .str r.status.toWire)]

/-- Untagged enum serialisation: the content of the active variant. -/
def AuthorizeKind.toJson : AuthorizeKind → Json
  | .Request r => r.toJson
  | .Response r => r.toJson

def BootNotificationKind.toJson : BootNotificationKind → Json
  | .Request r => r.toJson
  | .Response r => r.toJson

def ChangeAvailabilityKind.toJson : ChangeAvailabilityKind → Json
  | .Request r => r.toJson
  | .Response r => r.toJson

def ChangeConfigurationKind.toJson : ChangeConfigurationKind → Json
  | .Request r => r.toJson
  | .Response r => r.toJson

def ClearCacheKind.toJson : ClearCacheKind → Json
  | .Request r => r.toJson
  | .Response r => r.toJson

def DataTransferKind.toJson : DataTransferKind → Json
  | .Request r => r.toJson
  | .Response r => r.toJson

def GetConfigurationKind.toJson : GetConfigurationKind → Json
  | .Request r => r.toJson
  | .Response r => r.toJson

def HeartbeatKind.toJson : HeartbeatKind → Json
  | .Request r => r.toJson
  | .Response r => r.toJson

def MeterValuesKind.toJson : MeterValuesKind → Json
  | .Request r => r.toJson
  | .Response r => r.toJson

def RemoteStartTransactionKind.toJson : RemoteStartTransactionKind → Json
  | .Request r => r.toJson
  | .Response r => r.toJson

def RemoteStopTransactionKind.toJson : RemoteStopTransactionKind → Json
  | .Request r => r.toJson
  | .Response r => r.toJson

def ResetKind.toJson : ResetKind → Json
  | .Request r => r.toJson
  | .Response r => r.toJson

def StartTransactionKind.toJson : StartTransactionKind → Json
  | .Request r => r.toJson
  | .Response r => r.toJson

def StatusNotificationKind.toJson : StatusNotificationKind → Json
  | .Request r => r.toJson
  | .Response r => r.toJson

def StopTransactionKind.toJson : StopTransactionKind → Json
  | .Request r => r.toJson
  | .Response r => r.toJson

def UnlockConnectorKind.toJson : UnlockConnectorKind → Json
  | .Request r => r.toJson
  | .Response r => r.toJson

def OcppPayload.toJson : OcppPayload → Json
  | .Authorize k => k.toJson
  | .BootNotification k => k.toJson
  | .ChangeAvailability k => k.toJson
  | .ChangeConfiguration k => k.toJson
  | .ClearCache k => k.toJson
  | .DataTransfer k => k.toJson
  | .GetConfiguration k => k.toJson
  | .Heartbeat k => k.toJson
  | .MeterValues k => k.toJson
  | .RemoteStartTransaction k => k.toJson
  | .RemoteStopTransaction k => k.toJson
  | .Reset k => k.toJson
  | .StartTransaction k => k.toJson
  | .StatusNotification k => k.toJson
  | .StopTransaction k => k.toJson
  | .UnlockConnector k => k.toJson

/-! ## Frame types and codec (main.rs lines 35–39, 225–265). -/

/-- `OcppActionEnum` (main.rs lines 41–62), declaration order. -/
inductive OcppActionEnum where
  | Authorize
  | BootNotification
  | ChangeAvailability
  | ChangeConfiguration
  | DataTransfer
  | ClearCache
  | GetConfiguration
  | Heartbeat
  | MeterValues
  | RemoteStartTransaction
  | RemoteStopTransaction
  | Reset
  | StatusNotification
  | StartTransaction
  | StopTransaction
  | UnlockConnector
deriving DecidableEq, Repr

/-- `OcppActionEnum::from_str` (main.rs lines 64–88); the `Err` case is
modelled as `none`. -/
def OcppActionEnum.fromStr : String → Option OcppActionEnum
  | "Authorize" => some .Authorize
  | "BootNotification" => some .BootNotification
  | "ChangeAvailability" => some .ChangeAvailability
  | "ChangeConfiguration" => some .ChangeConfiguration
  | "ClearCache" => some .ClearCache
  | "DataTransfer" => some .DataTransfer
  | "GetConfiguration" => some .GetConfiguration
  | "Heartbeat" => some .Heartbeat
  | "MeterValues" => some .MeterValues
  | "RemoteStartTransaction" => some .RemoteStartTransaction
  | "RemoteStopTransaction" => some .RemoteStopTransaction
  | "Reset" => some .Reset
  | "StatusNotification" => some .StatusNotification
  | "StartTransaction" => some .StartTransaction
  | "StopTransaction" => some .StopTransaction
  | "UnlockConnector" => some .UnlockConnector
  | _ => none

/-- `OcppCallResult` (main.rs lines 235–242): the struct the server
serialises for outbound replies.  `#[serde(rename_all = "PascalCase")]`
turns it into a JSON OBJECT with PascalCase keys, not a positional
array. -/
structure OcppCallResult where
  message_type_id : Nat
  message_id : String
  payload : OcppPayload
deriving DecidableEq, Repr

def OcppCallResult.encode (r : OcppCallResult) : Json :=
  .obj [("MessageTypeId", .num (r.message_type_id : Int)),
        ("MessageId", .str r.message_id),
        ("Payload", r.payload.toJson)]

/-- `OcppCallError` (main.rs lines 244–254), serialised the same way. -/
structure OcppCallError where
  message_type_id : Nat
  message_id : String
  error_code : String
  error_description : String
  error_details : Json
deriving DecidableEq, Repr

def OcppCallError.encode (e : OcppCallError) : Json :=
  .obj [("MessageTypeId", .num (e.message_type_id : Int)),
        ("MessageId", .str e.message_id),
        ("ErrorCode", .str e.error_code),
        ("ErrorDescription", .str e.error_description),
        ("ErrorDetails", e.error_details)]

/-- `OcppMessageType` (main.rs lines 256–265): the untagged enum used to
decode every inbound frame.  Tuple variants (de)serialise as positional
JSON arrays; the first element is a `usize`, so any non-negative
integer is accepted. -/
inductive OcppMessageType where
  | Call (message_type_id : Nat) (message_id : String) (action : String) (payload : Json)
  | CallResult (message_type_id : Nat) (message_id : String) (payload : Json)
  | CallError (message_type_id : Nat) (message_id : String) (error_code : String)
      (error_description : String) (error_details : Json)
deriving DecidableEq, Repr

/-- serde `Serialize` for the untagged tuple variants: positional arrays. -/
def OcppMessageType.encode : OcppMessageType → Json
  | .Call i id a p => .arr [.num (i : Int), .str id, .str a, p]
  | .CallResult i id p => .arr [.num (i : Int), .str id, p]
  | .CallError i id ec ed d => .arr [.num (i : Int), .str id, .str ec, .str ed, d]

/-- First untagged variant: a 4-element array `[usize, String, String, Value]`. -/
def OcppMessageType.tryCall : Json → Option OcppMessageType
  | .arr [.num i, .str id, .str a, p] =>
      if 0 ≤ i then some (.Call i.toNat id a p) else none
  | _ => none

/-- Second untagged variant: a 3-element array `[usize, String, Value]`. -/
def OcppMessageType.tryCallResult : Json → Option OcppMessageType
  | .arr [.num i, .str id, p] =>
      if 0 ≤ i then some (.CallResult i.toNat id p) else none
  | _ => none

/-- Third untagged variant: a 5-element array
`[usize, String, String, String, Value]`. -/
def OcppMessageType.tryCallError : Json → Option OcppMessageType
  | .arr [.num i, .str id, .str ec, .str ed, d] =>
      if 0 ≤ i then some (.CallError i.toNat id ec ed d) else none
  | _ => none

/-- `serde_json::from_str::<OcppMessageType>`: untagged, variants tried
in declaration order. -/
def OcppMessageType.decode (j : Json) : Option OcppMessageType :=
  oOr (OcppMessageType.tryCall j)
      (oOr (OcppMessageType.tryCallResult j) (OcppMessageType.tryCallError j))

/-! ## Handlers (main.rs lines 358–686).
Each handler returns the list of WebSocket text frames sent on the
socket, as `Json` values, in send order.  `now` stands for the value of
`Utc::now()` at the time the handler runs (handlers only embed it in
string timestamp fields). -/

/-- `handle_ocpp_call` (main.rs lines 410–645).  The Rust function first
re-parses the raw payload as the untagged `OcppPayload` (returning, with
no reply, if that fails) and then matches on the action; arms with an
empty body in the source send nothing. -/
def handle_ocpp_call (message_id : String) (action : OcppActionEnum)
    (payload : Json) (now : String) : List Json :=
  match ocppPayloadFromJson payload with
  | none => []
  | some ocpp_payload =>
    match action with
    | .Authorize =>
      match ocpp_payload with
      | .Authorize (.Request _) =>
          [OcppCallResult.encode ⟨3, message_id,
            .Authorize (.Response ⟨⟨none, none, .Accepted⟩⟩)⟩]
      | _ => []
    | .BootNotification =>
      match ocpp_payload with
      | .BootNotification (.Request boot_notification) =>
          if boot_notification.charge_point_serial_number
              = some "NKYK430037668" then
            [OcppCallResult.encode ⟨3, message_id,
              .BootNotification (.Response ⟨now, 300, .Accepted⟩)⟩]
          else []
      | _ => []
    | .ChangeAvailability => []
    | .ChangeConfiguration => []
    | .ClearCache => []
    | .DataTransfer =>
      match ocpp_payload with
      | .DataTransfer (.Request _) =>
          [OcppCallResult.encode ⟨3, message_id,
            .DataTransfer (.Response ⟨.Accepted, some "Data Transfer Accepted"⟩)⟩]
      | _ => []
    | .GetConfiguration => []
    | .Heartbeat =>
      match ocpp_payload with
      | .Heartbeat (.Request _) =>
          [OcppCallResult.encode ⟨3, message_id, .Heartbeat (.Response ⟨now⟩)⟩]
      | _ => []
    | .MeterValues => []
    | .RemoteStartTransaction => []
    | .RemoteStopTransaction => []
    | .Reset => []
    | .StatusNotification => []
    | .StartTransaction => []
    | .StopTransaction =>
      match ocpp_payload with
      | .StopTransaction (.Request _) =>
          [OcppCallResult.encode ⟨3, message_id,
            .StopTransaction (.Response ⟨some ⟨none, none, .Accepted⟩⟩)⟩]
      | _ => []
    | .UnlockConnector => []

/-- `handle_ocpp_call_result` (main.rs lines 648–662): parses the payload
and logs either way; nothing is ever sent. -/
def handle_ocpp_call_result (payload : Json) : List Json :=
  match ocppPayloadFromJson payload with
  | some _ => []
  | none => []

/-- `handle_ocpp_call_error` (main.rs lines 665–686): rebuilds an
`OcppCallError` from the decoded fields, serialises it and SENDS it back
on the socket. -/
def handle_ocpp_call_error (message_type_id : Nat) (message_id : String)
    (error_code : String) (error_description : String)
    (error_details : Json) : List Json :=
  [OcppCallError.encode
    ⟨message_type_id, message_id, error_code, error_description, error_details⟩]

/-- `handle_ocpp_messages` (main.rs lines 358–407): decode the frame
(returning silently on failure), then dispatch.  For a Call, an unknown
action is logged and the function returns with no reply. -/
def handle_ocpp_messages (message : Json) (now : String) : List Json :=
  match OcppMessageType.decode message with
  | none => []
  | some (.Call _ message_id action payload) =>
      match OcppActionEnum.fromStr action with
      | none => []
      | some a => handle_ocpp_call message_id a payload now
  | some (.CallResult _ _ payload) => handle_ocpp_call_result payload
  | some (.CallError mti id ec ed d) => handle_ocpp_call_error mti id ec ed d

/-- The receive loop of `handle_socket` (main.rs lines 337–355): each
text frame is handed to `handle_ocpp_messages`; the loop threads no
per-connection state between iterations.  A session is the list of
(frame, time-at-processing) pairs in arrival order; the result is the
concatenation of the outbound frames. -/
def runSession : List (Json × String) → List Json
  | [] => []
  | (m, t) :: rest => handle_ocpp_messages m t ++ runSession rest

/-- The action an `OcppPayload` variant belongs to. -/
def payloadAction : OcppPayload → OcppActionEnum
  | .Authorize _ => .Authorize
  | .BootNotification _ => .BootNotification
  | .ChangeAvailability _ => .ChangeAvailability
  | .ChangeConfiguration _ => .ChangeConfiguration
  | .ClearCache _ => .ClearCache
  | .DataTransfer _ => .DataTransfer
  | .GetConfiguration _ => .GetConfiguration
  | .Heartbeat _ => .Heartbeat
  | .MeterValues _ => .MeterValues
  | .RemoteStartTransaction _ => .RemoteStartTransaction
  | .RemoteStopTransaction _ => .RemoteStopTransaction
  | .Reset _ => .Reset
  | .StartTransaction _ => .StartTransaction
  | .StatusNotification _ => .StatusNotification
  | .StopTransaction _ => .StopTransaction
  | .UnlockConnector _ => .UnlockConnector

/-- `true` exactly on a JSON object of the OCPP ChangeAvailability
response schema: a single `status` field. -/
def isStatusOnlyObj : Json → Bool
  | .obj [("status", _)] => true
  | _ => false

/-! ## Theorems -/

theorem oOr_isSome_of_right {a b : Option α} (h : b.isSome = true) :
    (oOr a b).isSome = true := by
  cases a <;> simp [oOr, h]

theorem oOr_isSome_of_left {a : Option α} (b : Option α) (h : a.isSome = true) :
    (oOr a b).isSome = true := by
  cases a <;> simp [oOr] at h ⊢

theorem runSession_append (xs ys : List (Json × String)) :
    runSession (xs ++ ys) = runSession xs ++ runSession ys := by
  induction xs with
  | nil => simp [runSession]
  | cons hd tl ih =>
      obtain ⟨m, t⟩ := hd
      simp [runSession, ih]

/-- C3 (counterexample): the frame the server actually sends for a
CallResult is serialised from the `OcppCallResult` struct, whose
`rename_all = "PascalCase"` derive produces a JSON OBJECT — not the
positional array `[3, "<message_id>", {<payload>}]` — and decoding that
encoded reply fails, so `decode(encode(f)) == f` does not hold for the
program's CallResult encoder. -/
theorem C3_counterexample :
    OcppCallResult.encode ⟨3, "42", .Heartbeat (.Response ⟨"T"⟩)⟩ =
      .obj [("MessageTypeId", .num 3), ("MessageId", .str "42"),
            ("Payload", .obj [("currentTime", .str "T")])] ∧
    (OcppCallResult.encode ⟨3, "42", .Heartbeat (.Response ⟨"T"⟩)⟩).isArr = false ∧
    OcppMessageType.decode
      (OcppCallResult.encode ⟨3, "42", .Heartbeat (.Response ⟨"T"⟩)⟩) = none := by
  refine ⟨rfl, rfl, rfl⟩

/-- C3 (amended): the round-trip law `decode (encode f) = f` does hold
for the `OcppMessageType` codec — the untagged enum whose tuple variants
(de)serialise as positional arrays — but the program's outbound
CallResult/CallError frames are serialised from the `OcppCallResult` /
`OcppCallError` structs as PascalCase JSON objects, which are not in the
positional-array form and do not decode back. -/
theorem C3_roundtrip (f : OcppMessageType) :
    OcppMessageType.decode (OcppMessageType.encode f) = some f := by
  cases f with
  | Call i id a p =>
      simp [OcppMessageType.encode, OcppMessageType.decode, OcppMessageType.tryCall,
        oOr, Int.toNat_natCast]
  | CallResult i id p =>
      cases p <;>
        simp [OcppMessageType.encode, OcppMessageType.decode, OcppMessageType.tryCall,
          OcppMessageType.tryCallResult, oOr, Int.toNat_natCast]
  | CallError i id ec ed d =>
      simp [OcppMessageType.encode, OcppMessageType.decode, OcppMessageType.tryCall,
        OcppMessageType.tryCallResult, OcppMessageType.tryCallError, oOr,
        Int.toNat_natCast]

/-- C5 (counterexample): a JSON array whose first element is the integer
5 — not in {2,3,4} — decodes successfully as a Call (the untagged
`usize` field accepts any non-negative integer), instead of failing with
`MalformedFrame`. -/
theorem C5_counterexample :
    OcppMessageType.decode (.arr [.num 5, .str "a", .str "b", .obj []]) =
      some (.Call 5 "a" "b" (.obj [])) := by
  rfl

/-- C5 (amended): `decode` never checks the first element against
{2, 3, 4}: any array whose first element is a non-negative integer and
whose arity and element types match a variant decodes to that variant
(arity 4 → Call, 3 → CallResult, 5 → CallError), the first element's
value being carried through unchecked.  Only a negative or non-integer
first element, or a shape mismatch, makes decoding fail. -/
theorem C5_first_element_unchecked (n : Nat) (id a ed : String) (p : Json) :
    OcppMessageType.decode (.arr [.num (n : Int), .str id, .str a, p]) =
      some (.Call n id a p) ∧
    OcppMessageType.decode (.arr [.num (n : Int), .str id, p]) =
      some (.CallResult n id p) ∧
    OcppMessageType.decode (.arr [.num (n : Int), .str id, .str a, .str ed, p]) =
      some (.CallError n id a ed p) := by
  refine ⟨?_, ?_, ?_⟩
  · simp [OcppMessageType.decode, OcppMessageType.tryCall, oOr, Int.toNat_natCast]
  · cases p <;>
      simp [OcppMessageType.decode, OcppMessageType.tryCall,
        OcppMessageType.tryCallResult, oOr, Int.toNat_natCast]
  · simp [OcppMessageType.decode, OcppMessageType.tryCall,
      OcppMessageType.tryCallResult, OcppMessageType.tryCallError, oOr,
      Int.toNat_natCast]

/-- C9: the server keeps no per-connection protocol state between
frames.  Whatever two histories preceded it, the same inbound frame
processed at the same clock value produces the same outbound messages:
the frames a session emits for the frame appended after history `h1`
equal those emitted after history `h2`.  In particular a prior
BootNotification rejection or absence never changes how a later frame
is handled. -/
theorem C9_history_independent (h1 h2 : List (Json × String)) (m : Json) (t : String) :
    (runSession (h1 ++ [(m, t)])).drop (runSession h1).length =
    (runSession (h2 ++ [(m, t)])).drop (runSession h2).length := by
  rw [runSession_append, runSession_append, List.drop_left, List.drop_left]

/-- C10: both variants of `ChangeAvailabilityKind` wrap
`ChangeAvailabilityRequest`, so every value of the type serialises to an
object with exactly the request schema's fields (`connectorId`, `type`),
and no value serialises to the OCPP ChangeAvailability response schema
(a status-only object). -/
theorem C10_change_availability_request_shaped (k : ChangeAvailabilityKind) :
    (∃ c s, ChangeAvailabilityKind.toJson k =
        .obj [("connectorId", .num c), ("type", .str s)]) ∧
    isStatusOnlyObj (ChangeAvailabilityKind.toJson k) = false := by
  cases k with
  | Request r =>
      exact ⟨⟨(r.connector_id : Int), r.kind.toWire, rfl⟩, rfl⟩
  | Response r =>
      exact ⟨⟨(r.connector_id : Int), r.kind.toWire, rfl⟩, rfl⟩

/-- C1 (counterexample): the Call `[2,"7","ClearCache",{}]` decodes
successfully, names the whitelisted Core action ClearCache, and its
payload `{}` is a valid `ClearCache` request — yet the session emits
ZERO replies (the `ClearCache` arm of `handle_ocpp_call` is empty), not
exactly one. -/
theorem C1_counterexample :
    OcppMessageType.decode (.arr [.num 2, .str "7", .str "ClearCache", .obj []]) =
      some (.Call 2 "7" "ClearCache" (.obj [])) ∧
    OcppActionEnum.fromStr "ClearCache" = some .ClearCache ∧
    ocppPayloadFromJson (.obj []) = some (.ClearCache (.Request ⟨⟩)) ∧
    handle_ocpp_messages (.arr [.num 2, .str "7", .str "ClearCache", .obj []]) "t" = [] := by
  refine ⟨rfl, rfl, rfl, rfl⟩

/-- Every arm of `handle_ocpp_call` sends either nothing or a single
serialised `OcppCallResult` with message_type_id 3 and the inbound
Call's message_id. -/
theorem handle_ocpp_call_reply_shape (message_id : String) (action : OcppActionEnum)
    (payload : Json) (now : String) :
    handle_ocpp_call message_id action payload now = [] ∨
    ∃ pl : OcppPayload, handle_ocpp_call message_id action payload now =
      [OcppCallResult.encode ⟨3, message_id, pl⟩] := by
  unfold handle_ocpp_call
  split
  · exact Or.inl rfl
  · split <;> (repeat' split) <;>
      first
        | exact Or.inl rfl
        | exact Or.inr ⟨_, rfl⟩

/-- A serialised `OcppCallResult` (a 3-field PascalCase object) is never
equal to a serialised `OcppCallError` (a 5-field PascalCase object). -/
theorem callResult_encode_ne_callError_encode (r : OcppCallResult) (e : OcppCallError) :
    OcppCallResult.encode r ≠ OcppCallError.encode e := by
  intro h
  simp only [OcppCallResult.encode, OcppCallError.encode, Json.obj.injEq] at h
  exact absurd (congrArg List.length h) (by simp)

/-- C1 (amended): the session emits AT MOST one reply per inbound Call —
never more than one — and any reply is a single serialised CallResult
(message_type_id 3) carrying that Call's message_id; no CallError frame
is ever sent in response to an inbound Call.  But many whitelisted Core
actions with valid payloads (e.g. ClearCache, ChangeConfiguration,
StatusNotification) and all business-failure paths emit zero replies. -/
theorem C1_at_most_one_callresult_reply (message_id : String)
    (action : OcppActionEnum) (payload : Json) (now : String) :
    (handle_ocpp_call message_id action payload now).length ≤ 1 ∧
    (handle_ocpp_call message_id action payload now = [] ∨
      ∃ pl : OcppPayload, handle_ocpp_call message_id action payload now =
        [OcppCallResult.encode ⟨3, message_id, pl⟩]) ∧
    ∀ e : OcppCallError,
      OcppCallError.encode e ∉ handle_ocpp_call message_id action payload now := by
  obtain h | ⟨pl, h⟩ := handle_ocpp_call_reply_shape message_id action payload now
  · rw [h]
    exact ⟨by simp, Or.inl rfl, by simp⟩
  · rw [h]
    refine ⟨by simp, Or.inr ⟨pl, rfl⟩, ?_⟩
    intro e hmem
    simp only [List.mem_singleton] at hmem
    exact callResult_encode_ne_callError_encode ⟨3, message_id, pl⟩ e hmem.symm

/-- C2 (counterexample): for the Call `[2,"1","Bogus",{}]` whose action
is not whitelisted, `OcppActionEnum::from_str` fails and the dispatcher
returns with NO outbound frame at all — in particular no CallError with
error_code `NotImplemented` is sent. -/
theorem C2_counterexample :
    OcppActionEnum.fromStr "Bogus" = none ∧
    handle_ocpp_messages (.arr [.num 2, .str "1", .str "Bogus", .obj []]) "t" = [] := by
  refine ⟨rfl, rfl⟩

/-- C2 (amended): for every inbound Call whose action string is not one
of the whitelisted Core action names, the dispatcher does not crash and
the connection remains open — subsequent frames are still processed —
but it sends NO reply at all (the failure is only logged); no CallError
with error_code `NotImplemented` is produced. -/
theorem C2_unknown_action_no_reply (a : String) (h : OcppActionEnum.fromStr a = none)
    (id : String) (p : Json) (t : String) (rest : List (Json × String)) :
    handle_ocpp_messages (.arr [.num 2, .str id, .str a, p]) t = [] ∧
    runSession ((.arr [.num 2, .str id, .str a, p], t) :: rest) = runSession rest := by
  have hmsg : handle_ocpp_messages (.arr [.num 2, .str id, .str a, p]) t = [] := by
    simp [handle_ocpp_messages, OcppMessageType.decode, OcppMessageType.tryCall, oOr, h]
  exact ⟨hmsg, by simp [runSession, hmsg]⟩

/-- C2 (witness): instantiated at the Call `[2,"1","Bogus",{}]` followed
by an empty remainder of the session. -/
theorem C2_unknown_action_no_reply_witness :
    handle_ocpp_messages (.arr [.num 2, .str "1", .str "Bogus", .obj []]) "t" = [] ∧
    runSession [(.arr [.num 2, .str "1", .str "Bogus", .obj []], "t")] = runSession [] :=
  C2_unknown_action_no_reply "Bogus" rfl "1" (.obj []) "t" []

/-- C4 (counterexample): in a Call naming the action Heartbeat with
payload `{}`, the payload is NOT interpreted under the Heartbeat schema:
the untagged `OcppPayload` deserialiser returns the `ClearCache` request
variant (the first variant in declaration order whose shape accepts
`{}`), i.e. a payload interpreted as belonging to a different action
than the one named — and the Heartbeat arm consequently sends nothing. -/
theorem C4_counterexample :
    ocppPayloadFromJson (.obj []) = some (.ClearCache (.Request ⟨⟩)) ∧
    payloadAction (.ClearCache (.Request ⟨⟩)) ≠ OcppActionEnum.Heartbeat ∧
    handle_ocpp_call "9" .Heartbeat (.obj []) "t" = [] := by
  refine ⟨rfl, by decide, rfl⟩

/-- C4 (amended): payload interpretation is NOT keyed by the action
named in the frame: `handle_ocpp_call` deserialises the raw payload as
the untagged `OcppPayload` union, trying every known action's payload
shape in declaration order and keeping the first structural match,
independently of the action string.  In particular every JSON object
payload is accepted by some variant (`ClearCache`'s empty request shape
at the latest), so a payload can be interpreted as belonging to a
different action than the one named in the Call. -/
theorem C4_untagged_structural (fields : List (String × Json)) :
    (ocppPayloadFromJson (.obj fields)).isSome = true := by
  unfold ocppPayloadFromJson
  apply oOr_isSome_of_right
  apply oOr_isSome_of_right
  apply oOr_isSome_of_right
  apply oOr_isSome_of_right
  apply oOr_isSome_of_left
  simp [ClearCacheKind.fromJson, ClearCacheRequest.fromJson, Json.isObj, oOr]

/-- C6: the code at the failing input `[2,"42","Heartbeat",{}]`: the
payload `{}` parses as a `ClearCache` request (untagged union, first
match wins), the Heartbeat arm's pattern therefore falls through to its
catch-all, and NO reply is sent — the well-formed Heartbeat Call goes
unanswered even though the code's Heartbeat arm would build
`[3,"42",{"currentTime": ...}]` had the payload parsed as Heartbeat. -/
theorem C6_heartbeat_unanswered :
    ocppPayloadFromJson (.obj []) = some (OcppPayload.ClearCache (.Request ⟨⟩)) ∧
    handle_ocpp_messages
      (.arr [.num 2, .str "42", .str "Heartbeat", .obj []]) "2024-01-01T00:00:00Z" = [] := by
  refine ⟨rfl, rfl⟩

/-- C7 (counterexample): a well-formed BootNotification Call whose
request lacks the hardcoded serial number gets NO reply at all — neither
an Accepted nor a Rejected CallResult — refuting "a reply is sent
whether or not the identity check passes". -/
theorem C7_counterexample :
    handle_ocpp_messages
      (.arr [.num 2, .str "1", .str "BootNotification",
        .obj [("chargePointVendor", .str "X"), ("chargePointModel", .str "Y")]]) "t"
      = [] := by
  rfl

/-- C7 (amended): for a BootNotification Call whose payload parses as a
BootNotification request, the engine compares the declared
`chargePointSerialNumber` against the hardcoded literal
`"NKYK430037668"` (not a collaborator-supplied check): on match it
replies with one CallResult carrying status Accepted and interval 300;
otherwise it logs and sends NO reply — a Rejected status is never
sent. -/
theorem C7_boot_reply_only_hardcoded_serial (id t : String)
    (b : BootNotificationRequest) (p : Json)
    (hp : ocppPayloadFromJson p = some (.BootNotification (.Request b))) :
    handle_ocpp_call id .BootNotification p t =
      if b.charge_point_serial_number = some "NKYK430037668" then
        [OcppCallResult.encode ⟨3, id, .BootNotification (.Response ⟨t, 300, .Accepted⟩)⟩]
      else [] := by
  unfold handle_ocpp_call
  rw [hp]

/-- C7 (witness): instantiated at a BootNotification request carrying
the hardcoded serial number, which is answered with the Accepted
CallResult. -/
theorem C7_boot_reply_only_hardcoded_serial_witness :
    handle_ocpp_call "1" .BootNotification
      (.obj [("chargePointVendor", .str "X"), ("chargePointModel", .str "Y"),
             ("chargePointSerialNumber", .str "NKYK430037668")]) "t" =
      [OcppCallResult.encode ⟨3, "1", .BootNotification (.Response ⟨"t", 300, .Accepted⟩)⟩] := by
  have h := C7_boot_reply_only_hardcoded_serial "1" "t"
    ⟨none, "Y", some "NKYK430037668", "X", none, none, none, none, none⟩
    (.obj [("chargePointVendor", .str "X"), ("chargePointModel", .str "Y"),
           ("chargePointSerialNumber", .str "NKYK430037668")]) rfl
  simpa using h

/-- C8 (counterexample): the inbound CallError
`[4,"9","GenericError","boom",{}]` is answered with exactly one outbound
frame — the CallError re-serialised as a PascalCase JSON object — so the
handler does NOT produce zero outbound frames. -/
theorem C8_counterexample :
    handle_ocpp_messages
      (.arr [.num 4, .str "9", .str "GenericError", .str "boom", .obj []]) "t" =
      [.obj [("MessageTypeId", .num 4), ("MessageId", .str "9"),
             ("ErrorCode", .str "GenericError"), ("ErrorDescription", .str "boom"),
             ("ErrorDetails", .obj [])]] := by
  rfl

/-- C8 (amended): every inbound CallError frame is logged AND echoed:
`handle_ocpp_call_error` rebuilds the `OcppCallError` struct from the
decoded fields, serialises it as a PascalCase JSON object, and sends
exactly that one frame back on the socket. -/
theorem C8_callerror_echoed (mti : Nat) (id ec ed : String) (d : Json) (t : String) :
    handle_ocpp_messages (.arr [.num (mti : Int), .str id, .str ec, .str ed, d]) t =
      [OcppCallError.encode ⟨mti, id, ec, ed, d⟩] := by
  simp [handle_ocpp_messages, OcppMessageType.decode, OcppMessageType.tryCall,
    OcppMessageType.tryCallResult, OcppMessageType.tryCallError, oOr,
    Int.toNat_natCast, handle_ocpp_call_error]
